import Mathlib

/-!
Verification of the resource-fetch client in `utils/api.js`.

The entire executable logic of the repository is:

  const API_URL = "https://your-django-api.com/api/";
  export async function fetchBooks() {
    const res = await fetch(`${API_URL}books/`);
    return res.json();
  }

We embed this shallowly: the network is an environment `Net` mapping a URL
to either an HTTP response (status and raw body string) or a rejection value
(the error `fetch` would reject with on a transport failure).  `fetchBooks`
becomes a pure function of that environment returning the list of requests it
issues together with its outcome, an `Except` of the parsed JSON body.
`res.json()` is modelled by `jsonMethod`, built on a total executable JSON
parser `parseJson` that models the runtime's `JSON.parse` (numbers are kept
in exact decimal form `mantissa * 10 ^ exponent` instead of floating point).
-/

/-- JSON values, as produced by `JSON.parse`.  A number is kept exactly as
`num m e`, denoting `m * 10 ^ e`, avoiding floating point. -/
inductive Json where
  | null : Json
  | bool : Bool → Json
  | num : Int → Int → Json
  | str : String → Json
  | arr : List Json → Json
  | obj : List (String × Json) → Json
deriving Repr

/-- JSON insignificant whitespace characters. -/
def isJsonWs (c : Char) : Bool :=
  c == ' ' || c == '\t' || c == '\n' || c == '\x0d'

/-- Drop leading JSON whitespace. -/
def skipWs : List Char → List Char
  | c :: cs => if isJsonWs c then skipWs cs else c :: cs
  | [] => []

/-- Accumulate a run of decimal digits: returns (value, digit count, rest). -/
def parseDigitsAux : List Char → Nat → Nat → Nat × Nat × List Char
  | c :: cs, acc, n =>
    if c.isDigit then parseDigitsAux cs (acc * 10 + (c.toNat - 48)) (n + 1)
    else (acc, n, c :: cs)
  | [], acc, n => (acc, n, [])

/-- A non-empty run of decimal digits, or failure. -/
def parseDigits (input : List Char) : Option (Nat × Nat × List Char) :=
  match parseDigitsAux input 0 0 with
  | (v, n, rest) => if n = 0 then none else some (v, n, rest)

/-- Integer part of a JSON number: `0`, or a nonzero digit followed by more
digits (leading zeros are rejected, as `JSON.parse` does). -/
def parseIntPart : List Char → Option (Nat × List Char)
  | '0' :: rest =>
    match rest with
    | c :: _ => if c.isDigit then none else some (0, rest)
    | [] => some (0, [])
  | input =>
    match parseDigits input with
    | some (v, _, rest) => some (v, rest)
    | none => none

/-- Optional fraction part: returns (fraction value, fraction digit count, rest). -/
def parseFracOpt : List Char → Option (Nat × Nat × List Char)
  | '.' :: rest =>
    match parseDigits rest with
    | some (v, n, r) => some (v, n, r)
    | none => none
  | input => some (0, 0, input)

/-- Exponent digits after `e`/`E`, with optional sign. -/
def parseExpTail : List Char → Option (Int × List Char)
  | '+' :: rest =>
    match parseDigits rest with
    | some (v, _, r) => some ((v : Int), r)
    | none => none
  | '-' :: rest =>
    match parseDigits rest with
    | some (v, _, r) => some (-(v : Int), r)
    | none => none
  | input =>
    match parseDigits input with
    | some (v, _, r) => some ((v : Int), r)
    | none => none

/-- Optional exponent part of a JSON number. -/
def parseExpOpt : List Char → Option (Int × List Char)
  | 'e' :: rest => parseExpTail rest
  | 'E' :: rest => parseExpTail rest
  | input => some (0, input)

/-- A JSON number at the head of the input, in `JSON.parse`'s grammar:
`-? int frac? exp?`. -/
def parseNumberAt (input : List Char) : Option (Json × List Char) :=
  let p : Bool × List Char :=
    match input with
    | '-' :: r => (true, r)
    | _ => (false, input)
  match parseIntPart p.2 with
  | none => none
  | some (ip, rest1) =>
    match parseFracOpt rest1 with
    | none => none
    | some (fv, fn, rest2) =>
      match parseExpOpt rest2 with
      | none => none
      | some (ex, rest3) =>
        let mant : Int := ((ip * 10 ^ fn + fv : Nat) : Int)
        some (.num (if p.1 then -mant else mant) (ex - fn), rest3)

/-- Value of a hexadecimal digit. -/
def hexVal (c : Char) : Option Nat :=
  let n := c.toNat
  if 48 ≤ n ∧ n ≤ 57 then some (n - 48)
  else if 97 ≤ n ∧ n ≤ 102 then some (n - 87)
  else if 65 ≤ n ∧ n ≤ 70 then some (n - 55)
  else none

/-- Body of a JSON string after the opening quote, with the standard escape
sequences; control characters below U+0020 are rejected, as in `JSON.parse`. -/
def parseStringAux : Nat → List Char → List Char → Option (String × List Char)
  | 0, _, _ => none
  | _ + 1, [], _ => none
  | fuel + 1, c :: rest, acc =>
    if c == '"' then some (String.mk acc.reverse, rest)
    else if c == '\\' then
      match rest with
      | [] => none
      | e :: rest2 =>
        if e == '"' then parseStringAux fuel rest2 ('"' :: acc)
        else if e == '\\' then parseStringAux fuel rest2 ('\\' :: acc)
        else if e == '/' then parseStringAux fuel rest2 ('/' :: acc)
        else if e == 'b' then parseStringAux fuel rest2 ('\x08' :: acc)
        else if e == 'f' then parseStringAux fuel rest2 ('\x0c' :: acc)
        else if e == 'n' then parseStringAux fuel rest2 ('\n' :: acc)
        else if e == 'r' then parseStringAux fuel rest2 ('\x0d' :: acc)
        else if e == 't' then parseStringAux fuel rest2 ('\t' :: acc)
        else if e == 'u' then
          match rest2 with
          | h1 :: h2 :: h3 :: h4 :: rest3 =>
            match hexVal h1, hexVal h2, hexVal h3, hexVal h4 with
            | some a, some b, some c2, some d =>
              parseStringAux fuel rest3
                (Char.ofNat (((a * 16 + b) * 16 + c2) * 16 + d) :: acc)
            | _, _, _, _ => none
          | _ => none
        else none
    else if c.toNat < 32 then none
    else parseStringAux fuel rest (c :: acc)

/-- A JSON string literal starting at the opening quote's successor. -/
def parseStringAt (input : List Char) : Option (String × List Char) :=
  parseStringAux (input.length + 1) input []

mutual

/-- A JSON value at the head of the input (leading whitespace allowed). -/
def parseValue : Nat → List Char → Option (Json × List Char)
  | 0, _ => none
  | fuel + 1, input =>
    match skipWs input with
    | 'n' :: 'u' :: 'l' :: 'l' :: rest => some (.null, rest)
    | 't' :: 'r' :: 'u' :: 'e' :: rest => some (.bool true, rest)
    | 'f' :: 'a' :: 'l' :: 's' :: 'e' :: rest => some (.bool false, rest)
    | '"' :: rest =>
      match parseStringAt rest with
      | some (s, r) => some (.str s, r)
      | none => none
    | '[' :: rest =>
      match skipWs rest with
      | ']' :: rest2 => some (.arr [], rest2)
      | other =>
        match parseArrayItems fuel other with
        | some (vs, r) => some (.arr vs, r)
        | none => none
    | '\x7b' :: rest =>
      match skipWs rest with
      | '\x7d' :: rest2 => some (.obj [], rest2)
      | other =>
        match parseObjectItems fuel other with
        | some (ms, r) => some (.obj ms, r)
        | none => none
    | other => parseNumberAt other

/-- One or more comma-separated array items followed by `]`. -/
def parseArrayItems : Nat → List Char → Option (List Json × List Char)
  | 0, _ => none
  | fuel + 1, input =>
    match parseValue fuel input with
    | none => none
    | some (v, rest) =>
      match skipWs rest with
      | ',' :: rest2 =>
        match parseArrayItems fuel rest2 with
        | some (vs, r) => some (v :: vs, r)
        | none => none
      | ']' :: rest2 => some ([v], rest2)
      | _ => none

/-- One or more comma-separated `"key": value` members followed by the
closing brace. -/
def parseObjectItems : Nat → List Char → Option (List (String × Json) × List Char)
  | 0, _ => none
  | fuel + 1, input =>
    match skipWs input with
    | '"' :: rest =>
      match parseStringAt rest with
      | none => none
      | some (k, rest2) =>
        match skipWs rest2 with
        | ':' :: rest3 =>
          match parseValue fuel rest3 with
          | none => none
          | some (v, rest4) =>
            match skipWs rest4 with
            | ',' :: rest5 =>
              match parseObjectItems fuel rest5 with
              | some (ms, r) => some ((k, v) :: ms, r)
              | none => none
            | '\x7d' :: rest5 => some ([(k, v)], rest5)
            | _ => none
        | _ => none
    | _ => none

end

/-- Model of `JSON.parse`: parses the whole string (trailing whitespace
allowed), or fails. -/
def parseJson (s : String) : Option Json :=
  let cs := s.toList
  match parseValue (2 * cs.length + 2) cs with
  | some (v, rest) => if (skipWs rest).isEmpty then some v else none
  | none => none

/-! ## The client, from `utils/api.js` -/

/-- From the source: `const API_URL = "https://your-django-api.com/api/";` -/
def API_URL : String := "https://your-django-api.com/api/"

/-- An outbound HTTP request as issued by `fetch(url)` with no init object:
method GET, the given URL. -/
structure Request where
  method : String
  url : String
deriving DecidableEq, Repr

/-- An HTTP response as seen by the client: status code and raw body text. -/
structure HttpResponse where
  status : Nat
  body : String
deriving DecidableEq, Repr

/-- A rejection value: either the error `fetch` rejects with on a transport
failure, or the error `res.json()` rejects with when the body is not valid
JSON. -/
inductive JsError where
  | typeError (msg : String)
  | jsonError (msg : String)
deriving DecidableEq, Repr

/-- What awaiting `fetch(url)` yields: a response, or a rejection. -/
inductive FetchOutcome where
  | response (r : HttpResponse)
  | failure (e : JsError)

/-- The network environment: what the transport layer does for each URL. -/
def Net : Type := String → FetchOutcome

/-- The URL the source builds: `` `${API_URL}books/` ``. -/
def booksUrl : String := API_URL ++ "books/"

/-- Model of `res.json()`: parse the body as JSON; resolve with the parsed
value or reject with the parse error. -/
def jsonMethod (r : HttpResponse) : Except JsError Json :=
  match parseJson r.body with
  | some v => .ok v
  | none => .error (.jsonError "Unexpected token in JSON")

/-- Model of `fetchBooks()`: awaits `fetch(API_URL ++ "books/")` and returns
`res.json()`.  The result is the list of requests issued during the call and
the settled outcome of the returned promise. -/
def fetchBooks (net : Net) : List Request × Except JsError Json :=
  match net booksUrl with
  | .failure e => ([⟨"GET", booksUrl⟩], .error e)
  | .response r => ([⟨"GET", booksUrl⟩], jsonMethod r)

/-- A JavaScript call `fetchBooks(a, b, ...)`: the function declares no
parameters, so any supplied arguments are ignored. -/
def fetchBooksCall {α : Type} (_args : List α) (net : Net) :
    List Request × Except JsError Json :=
  fetchBooks net

/-! ## Module state, passed explicitly

The module's only top-level binding is `const API_URL`; the client keeps no
cache and no other mutable state.  To state that, we pass the module state
explicitly: a call reads it and returns it unchanged. -/

/-- The module's top-level state: the single `const API_URL` binding.  The
client keeps no cache, so there is no other field. -/
structure ClientState where
  apiUrl : String
deriving DecidableEq, Repr

/-- The state at process start, from `const API_URL = "..."`. -/
def initState : ClientState := ⟨"https://your-django-api.com/api/"⟩

/-- `fetchBooks` with the module state passed explicitly: it reads `apiUrl`
to build the URL and returns the state unchanged (a `const` binding cannot
be reassigned, and nothing is cached). -/
def fetchBooksSt (st : ClientState) (net : Net) :
    (List Request × Except JsError Json) × ClientState :=
  match net (st.apiUrl ++ "books/") with
  | .failure e => (([⟨"GET", st.apiUrl ++ "books/"⟩], .error e), st)
  | .response r => (([⟨"GET", st.apiUrl ++ "books/"⟩], jsonMethod r), st)

/-- `n` sequential calls, threading the module state through. -/
def runCallsSt (net : Net) : Nat → ClientState →
    List (List Request × Except JsError Json) × ClientState
  | 0, st => ([], st)
  | n + 1, st =>
    let r1 := fetchBooksSt st net
    let rs := runCallsSt net n r1.2
    (r1.1 :: rs.1, rs.2)

theorem fetchBooksSt_state (st : ClientState) (net : Net) :
    (fetchBooksSt st net).2 = st := by
  cases h : net (st.apiUrl ++ "books/") <;> simp [fetchBooksSt, h]

theorem fetchBooksSt_init (net : Net) :
    fetchBooksSt initState net = (fetchBooks net, initState) := by
  have h : initState.apiUrl ++ "books/" = booksUrl := rfl
  cases hout : net booksUrl with
  | failure e => simp only [fetchBooksSt, fetchBooks, h, hout]
  | response r => simp only [fetchBooksSt, fetchBooks, h, hout]

theorem runCallsSt_state (net : Net) (n : Nat) (st : ClientState) :
    runCallsSt net n st = (List.replicate n (fetchBooksSt st net).1, st) := by
  induction n with
  | zero => rfl
  | succ n ih =>
    simp only [runCallsSt, fetchBooksSt_state, ih, List.replicate_succ]

/-! ## Per-call state machine and interleaving of two concurrent calls

Spec §4: each call is a trivial two-state machine, Pending → Resolved or
Failed.  A call suspends at the `await fetch(...)` boundary and at the
`res.json()` boundary; we model one call as taking two steps, and two
concurrent calls as an arbitrary interleaving of their steps. -/

/-- The phase of one in-flight call.  `start` carries the (ignored) argument
the caller supplied; `awaitingJson` holds what `fetch` settled with;
`done` holds the settled outcome of the call's promise. -/
inductive CallPhase where
  | start (arg : String)
  | awaitingJson (out : FetchOutcome)
  | done (res : Except JsError Json)

/-- One step of one call: issue the request and receive the transport's
outcome, then run `res.json()` (or propagate the rejection).  A finished
call stays finished.  The second component is the requests issued by the
step. -/
def callStep (net : Net) : CallPhase → CallPhase × List Request
  | .start _ => (.awaitingJson (net booksUrl), [⟨"GET", booksUrl⟩])
  | .awaitingJson (.failure e) => (.done (.error e), [])
  | .awaitingJson (.response r) => (.done (jsonMethod r), [])
  | .done r => (.done r, [])

/-- `n` steps of one call. -/
def iterStep (net : Net) : Nat → CallPhase → CallPhase
  | 0, c => c
  | n + 1, c => iterStep net n (callStep net c).1

/-- Run two calls under a schedule: `true` steps the first call, `false`
steps the second. -/
def runPair (net : Net) : List Bool → CallPhase × CallPhase → CallPhase × CallPhase
  | [], s => s
  | true :: sched, s => runPair net sched ((callStep net s.1).1, s.2)
  | false :: sched, s => runPair net sched (s.1, (callStep net s.2).1)

theorem runPair_decompose (net : Net) (sched : List Bool) :
    ∀ c1 c2, runPair net sched (c1, c2) =
      (iterStep net (sched.count true) c1, iterStep net (sched.count false) c2) := by
  induction sched with
  | nil => intro c1 c2; rfl
  | cons b sched ih =>
    intro c1 c2
    cases b with
    | true => simp [runPair, ih, List.count_cons, iterStep]
    | false => simp [runPair, ih, List.count_cons, iterStep]

theorem iterStep_done (net : Net) (r : Except JsError Json) (n : Nat) :
    iterStep net n (.done r) = .done r := by
  induction n with
  | zero => rfl
  | succ n ih => simpa [iterStep, callStep] using ih

theorem iterStep_start (net : Net) (p : String) (n : Nat) (h : 2 ≤ n) :
    iterStep net n (.start p) = .done (fetchBooks net).2 := by
  obtain ⟨m, rfl⟩ : ∃ m, n = m + 2 := ⟨n - 2, by omega⟩
  cases hout : net booksUrl with
  | failure e => simp [iterStep, callStep, hout, fetchBooks, iterStep_done]
  | response r => simp [iterStep, callStep, hout, fetchBooks, iterStep_done]

/-- Whatever the network does, a call issues exactly the one GET request to
the books URL. -/
theorem fetchBooks_requests (net : Net) :
    (fetchBooks net).1 = [⟨"GET", booksUrl⟩] := by
  cases h : net booksUrl <;> simp [fetchBooks, h]

/-! ## Claims -/

/-- Network used for the C1 counterexample. -/
def c1net : Net := fun _ => .response ⟨200, "[]"⟩

/-- C1, counterexample: the claim says the target URL is the endpoint
concatenated with the supplied path `p`; but for `p = "authors/"` the call
still targets `API_URL ++ "books/"`, not `API_URL ++ "authors/"`. -/
theorem c1_url_not_endpoint_plus_path :
    (fetchBooksCall ["authors/"] c1net).1 ≠ [⟨"GET", API_URL ++ "authors/"⟩] := by
  decide

/-- C1 (amended): one call to the fetch operation issues exactly one
outbound GET request (no other requests, no retries), and its target URL is
the configured endpoint concatenated with the fixed path `"books/"`,
whatever path the caller supplied. -/
theorem fetchBooks_one_request_books_url (p : String) (net : Net) :
    (fetchBooksCall [p] net).1 = [⟨"GET", API_URL ++ "books/"⟩] :=
  fetchBooks_requests net

/-- C2: for every response whose body parses as JSON, the call resolves with
exactly the parsed value, unchanged — no transformation or validation. -/
theorem fetchBooks_resolves_parsed (net : Net) (r : HttpResponse) (j : Json)
    (hresp : net booksUrl = .response r) (hparse : parseJson r.body = some j) :
    (fetchBooks net).2 = .ok j := by
  simp [fetchBooks, hresp, jsonMethod, hparse]

/-- Network used for the C2 witness. -/
def c2net : Net := fun _ => .response ⟨200, "[\x7b\"id\":1,\"title\":\"A\"\x7d]"⟩

/-- C2, witness: a 200 response with body `[{"id":1,"title":"A"}]` resolves
with the corresponding JSON array. -/
theorem fetchBooks_resolves_parsed_witness :
    (fetchBooks c2net).2 =
      .ok (.arr [.obj [("id", .num 1 0), ("title", .str "A")]]) :=
  fetchBooks_resolves_parsed c2net ⟨200, "[\x7b\"id\":1,\"title\":\"A\"\x7d]"⟩
    (.arr [.obj [("id", .num 1 0), ("title", .str "A")]]) rfl rfl

/-- C3: the outcome is independent of the response status code — two
responses with the same body but any two statuses yield the same result —
and when the body parses as JSON the call resolves with the parsed value,
2xx or not. -/
theorem fetchBooks_status_ignored (net net2 : Net) (s s2 : Nat) (b : String)
    (h : net booksUrl = .response ⟨s, b⟩) (h2 : net2 booksUrl = .response ⟨s2, b⟩) :
    (fetchBooks net).2 = (fetchBooks net2).2 ∧
    ∀ j, parseJson b = some j → (fetchBooks net).2 = .ok j := by
  constructor
  · simp [fetchBooks, h, h2, jsonMethod]
  · intro j hj
    simp [fetchBooks, h, jsonMethod, hj]

/-- Network used for the C3 witness: status 500 with a JSON body. -/
def c3net500 : Net := fun _ => .response ⟨500, "\x7b\"detail\":\"server error\"\x7d"⟩

/-- Network used for the C3 witness: status 200 with the same body. -/
def c3net200 : Net := fun _ => .response ⟨200, "\x7b\"detail\":\"server error\"\x7d"⟩

/-- C3, witness: a status-500 response with body `{"detail":"server error"}`
resolves successfully with that body's parsed value. -/
theorem fetchBooks_status_ignored_witness :
    (fetchBooks c3net500).2 = .ok (.obj [("detail", .str "server error")]) :=
  (fetchBooks_status_ignored c3net500 c3net200 500 200
      "\x7b\"detail\":\"server error\"\x7d" rfl rfl).2
    (.obj [("detail", .str "server error")]) rfl

/-- C4: a response whose body is not valid JSON makes the call reject; no
default, partial, or null value is substituted. -/
theorem fetchBooks_rejects_unparsable (net : Net) (r : HttpResponse)
    (hresp : net booksUrl = .response r) (hbad : parseJson r.body = none) :
    (∃ e, (fetchBooks net).2 = .error e) ∧ ∀ v, (fetchBooks net).2 ≠ .ok v := by
  have hres : (fetchBooks net).2 = .error (.jsonError "Unexpected token in JSON") := by
    simp [fetchBooks, hresp, jsonMethod, hbad]
  refine ⟨⟨_, hres⟩, fun v hv => ?_⟩
  rw [hres] at hv
  exact Except.noConfusion hv

/-- Network used for the C4 witness: a plain-text body. -/
def c4net : Net := fun _ => .response ⟨200, "error"⟩

/-- C4, witness: a 200 response with the non-JSON body `error` rejects. -/
theorem fetchBooks_rejects_unparsable_witness :
    (∃ e, (fetchBooks c4net).2 = .error e) ∧ ∀ v, (fetchBooks c4net).2 ≠ .ok v :=
  fetchBooks_rejects_unparsable c4net ⟨200, "error"⟩ rfl rfl

/-- C5: a transport-level failure makes the call reject with a failure
outcome — never resolve with a partial or null value — and that outcome is
the same single kind of rejection (`Except.error` of a `JsError`) that a
parse failure produces. -/
theorem fetchBooks_rejects_transport (net : Net) (e : JsError)
    (h : net booksUrl = .failure e) :
    (fetchBooks net).2 = .error e ∧ ∀ v, (fetchBooks net).2 ≠ .ok v := by
  have hres : (fetchBooks net).2 = .error e := by simp [fetchBooks, h]
  refine ⟨hres, fun v hv => ?_⟩
  rw [hres] at hv
  exact Except.noConfusion hv

/-- Network used for the C5 witness: the connection cannot be established. -/
def c5net : Net := fun _ => .failure (.typeError "Failed to fetch")

/-- C5, witness: an unreachable host makes the call reject with the
transport error, not resolve. -/
theorem fetchBooks_rejects_transport_witness :
    (fetchBooks c5net).2 = .error (.typeError "Failed to fetch") ∧
    ∀ v, (fetchBooks c5net).2 ≠ .ok v :=
  fetchBooks_rejects_transport c5net (.typeError "Failed to fetch") rfl

/-- Network used for the C6 counterexample. -/
def c6net : Net := fun _ => .response ⟨200, "null"⟩

/-- C6, counterexample: the claim says a caller-supplied path is passed
through to the HTTP layer unmodified; but supplying the (malformed) path
`"not a/valid path"` does not reach the HTTP layer at all — the request
still targets the fixed books URL. -/
theorem c6_path_not_passed_through :
    (fetchBooksCall ["not a/valid path"] c6net).1 ≠
      [⟨"GET", API_URL ++ "not a/valid path"⟩] := by
  decide

/-- C6 (amended): the operation accepts any caller-supplied arguments,
malformed or not, performs no validation on them, and ignores them — the
call behaves exactly like the argumentless call and its single request
targets the fixed books URL. -/
theorem fetchBooksCall_no_validation (args : List String) (net : Net) :
    fetchBooksCall args net = fetchBooks net ∧
    (fetchBooksCall args net).1 = [⟨"GET", API_URL ++ "books/"⟩] :=
  ⟨rfl, fetchBooks_requests net⟩

/-- C7: the endpoint is the value fixed at process start, a call returns the
module state unchanged (no mutation of the endpoint, no caching), and `n`
sequential calls all behave like the very first one — each call is
independent and stateless. -/
theorem endpoint_immutable_client_stateless (net : Net) (n : Nat) (st : ClientState) :
    initState.apiUrl = API_URL ∧
    (fetchBooksSt st net).2 = st ∧
    runCallsSt net n initState = (List.replicate n (fetchBooks net), initState) := by
  refine ⟨rfl, fetchBooksSt_state st net, ?_⟩
  rw [runCallsSt_state, fetchBooksSt_init]

/-- C8: two concurrent calls with different supplied paths, interleaved
under any schedule that lets both finish, share no state and each resolves
with the result of its own request — the interleaving is invisible in the
outcome. -/
theorem concurrent_calls_no_crosstalk (net : Net) (sched : List Bool)
    (p1 p2 : String) (_hp : p1 ≠ p2)
    (h1 : 2 ≤ sched.count true) (h2 : 2 ≤ sched.count false) :
    runPair net sched (.start p1, .start p2) =
      (.done (fetchBooks net).2, .done (fetchBooks net).2) := by
  have h := runPair_decompose net sched (CallPhase.start p1) (CallPhase.start p2)
  rw [h, iterStep_start net p1 _ h1, iterStep_start net p2 _ h2]

/-- Network used for the C8 witness. -/
def c8net : Net := fun _ => .response ⟨200, "[2]"⟩

/-- C8, witness: two interleaved calls with paths `a/` and `b/` both finish
with the value of their own request. -/
theorem concurrent_calls_no_crosstalk_witness :
    runPair c8net [true, false, true, false] (.start "a/", .start "b/") =
      (.done (.ok (.arr [.num 2 0])), .done (.ok (.arr [.num 2 0]))) :=
  concurrent_calls_no_crosstalk c8net [true, false, true, false] "a/" "b/"
    (by decide) (by decide) (by decide)

/-- C9: the exported operation ignores its arguments — any two calls with
any argument lists behave identically under the same network, and the
single request always targets the fixed endpoint concatenated with
`"books/"`. -/
theorem fetchBooksCall_ignores_arguments {α β : Type} (args : List α)
    (args2 : List β) (net : Net) :
    fetchBooksCall args net = fetchBooksCall args2 net ∧
    (fetchBooksCall args net).1 = [⟨"GET", API_URL ++ "books/"⟩] :=
  ⟨rfl, fetchBooks_requests net⟩

/-- C10: no error handler is installed — a transport rejection reaches the
caller as exactly that error value, and a response's outcome is exactly
whatever `res.json()` settles with, including its parse error, unwrapped. -/
theorem fetchBooks_no_error_handler (net : Net) :
    (∀ e, net booksUrl = .failure e → (fetchBooks net).2 = .error e) ∧
    (∀ r, net booksUrl = .response r → (fetchBooks net).2 = jsonMethod r) := by
  constructor
  · intro e h
    simp [fetchBooks, h]
  · intro r h
    simp [fetchBooks, h]

/-- Network used for the C10 witness. -/
def c10net : Net := fun _ =>
  .failure (.typeError "NetworkError when attempting to fetch resource")

/-- C10, witness: the exact transport error value surfaces to the caller. -/
theorem fetchBooks_no_error_handler_witness :
    (fetchBooks c10net).2 =
      .error (.typeError "NetworkError when attempting to fetch resource") :=
  (fetchBooks_no_error_handler c10net).1
    (.typeError "NetworkError when attempting to fetch resource") rfl
